import Mathlib

set_option maxRecDepth 8000

/-!
Verification development for the nerftank robot firmware.

The Python sources under `src/` are embedded shallowly:

* Python `float` arithmetic is modelled by `ℚ`.  Every arithmetic
  expression the embedded code performs on the values reached by these
  theorems is exact in binary floating point, or (in the servo angle
  conversions) its floating-point rounding error provably never crosses
  the integer boundaries that truncation observes, so the rational
  model computes the same truncated integers as the floats do.
* Python `int` is `ℤ`; `int(x)` (truncation toward zero) is `pyint`;
  `//` on nonnegative floats is `⌊·⌋`.
* The cooperative-scheduler turret loop is modelled as a step relation:
  a `tick` event performs one iteration of `Turret.run` (transition
  decision followed by the state body); the external calls `arm`,
  `disarm`, `fire` are events interleaved between ticks, which matches
  the uasyncio model where those callbacks only run while the loop is
  suspended at an `await` point — in particular the synchronous prefix
  of the FIRING body (trigger write, ammo decrement, latch clear) can
  never be interrupted by an external call.
* Fallible code (the `raise ValueError` fall-through of
  `_get_next_state`) returns `Option`.
-/

/-- Python `int(q)`: truncation toward zero of a rational. -/
def pyint (q : ℚ) : ℤ :=
  q.num.tdiv (q.den : ℤ)

/-- Python `abs` on a rational. -/
def pyabs (q : ℚ) : ℚ :=
  if q < 0 then -q else q

/-- Python `max` on two rationals. -/
def pymax (a b : ℚ) : ℚ :=
  if a < b then b else a

/-- Python `min` on two rationals. -/
def pymin (a b : ℚ) : ℚ :=
  if a < b then a else b

/-- `utils.map_range` (src/src/utils.py line 41): linear map between ranges. -/
def map_range (x in_min in_max out_min out_max : ℚ) : ℚ :=
  (x - in_min) * (out_max - out_min) / (in_max - in_min) + out_min

/-- One joystick axis pair of the decoded input frame. -/
structure Axes where
  x : ℚ
  y : ℚ
deriving DecidableEq

/-- The decoded `{drive:{x,y}, turret:{x,y}}` payload consumed by
`Robot.update` (src/src/robot.py line 79). -/
structure InputFrame where
  drive : Axes
  turret : Axes
deriving DecidableEq

/-- A command sent to one TB6612FNG motor channel
(src/src/tb6612fng.py: `forward`, `reverse`, `stop`). -/
inductive MotorCmd where
  | forward (speed : ℚ)
  | reverse (speed : ℚ)
  | stop
deriving DecidableEq

/-- The observable actuation effects `Robot.update` can emit: a command to
a motor of one side, or a turret `move` call (the latter constructor
exists because `Turret.move` is in the source; whether `update` ever
emits it is exactly what claim C1 asks). -/
inductive RobotEffect where
  | leftMotor (cmd : MotorCmd)
  | rightMotor (cmd : MotorCmd)
  | turretMove (pan tilt : ℚ)
deriving DecidableEq

/-- The robot façade: it owns `nLeft` left motors and `nRight` right motors
(src/src/robot.py line 5, the two pin lists). -/
structure Robot where
  nLeft : ℕ
  nRight : ℕ
deriving DecidableEq

/-- `Robot.map` (src/src/robot.py line 15). -/
def Robot.map (x in_min in_max out_min out_max : ℚ) : ℚ :=
  (x - in_min) * (out_max - out_min) / (in_max - in_min) + out_min

/-- `Robot._apply_deadzone` (src/src/robot.py line 33). -/
def Robot.apply_deadzone (value deadzone max_value : ℚ) : ℚ :=
  if pyabs value < deadzone then 0
  else
    let sign : ℚ := if value > 0 then 1 else -1
    let scaled := (pyabs value - deadzone) * max_value / (max_value - deadzone)
    sign * pymax 0 (pymin max_value scaled)

/-- `Robot.ramp_cubic` (src/src/robot.py line 44). -/
def Robot.ramp_cubic (value deadzone max_value : ℚ) : ℤ :=
  if pyabs value < deadzone then 0
  else
    let v := Robot.apply_deadzone value deadzone max_value
    let normalized := v / max_value
    let ramped := normalized * normalized * normalized
    pyint (ramped * max_value)

/-- The raw left-side speed computed by `Robot.drive`
(src/src/robot.py lines 98-101): speed rescaled to ±1023 plus turn
rescaled to ±511. -/
def Robot.leftSpeed (speed turn : ℚ) : ℚ :=
  Robot.map speed (-100) 100 (-1023) 1023 + Robot.map turn (-100) 100 (-511) 511

/-- The raw right-side speed computed by `Robot.drive`
(src/src/robot.py lines 98-102). -/
def Robot.rightSpeed (speed turn : ℚ) : ℚ :=
  Robot.map speed (-100) 100 (-1023) 1023 - Robot.map turn (-100) 100 (-511) 511

/-- The per-motor dispatch of `Robot.drive` (src/src/robot.py lines
104-118): positive speed drives forward, negative reverse with the
absolute value, zero stops. -/
def motorCmdFor (s : ℚ) : MotorCmd :=
  if s > 0 then .forward s
  else if s < 0 then .reverse (pyabs s)
  else .stop

/-- `Robot.drive` (src/src/robot.py line 91) as the list of effects it
performs: the same command to every motor of each side. -/
def Robot.drive (r : Robot) (speed turn : ℚ) : List RobotEffect :=
  let left_speed := Robot.leftSpeed speed turn
  let right_speed := Robot.rightSpeed speed turn
  List.replicate r.nLeft (.leftMotor (motorCmdFor left_speed)) ++
    List.replicate r.nRight (.rightMotor (motorCmdFor right_speed))

/-- `Robot.update` (src/src/robot.py line 79).  It extracts all four axes,
shapes speed and turn with `ramp_cubic` at deadzone 10, and calls
`drive`.  The extracted `pan`/`tilt` locals are bound and, as in the
source, not used further. -/
def Robot.update (r : Robot) (data : InputFrame) : List RobotEffect :=
  let speed := data.drive.y
  let turn := data.drive.x
  let _pan := data.turret.x
  let _tilt := data.turret.y
  let speed2 : ℚ := (Robot.ramp_cubic speed 10 100 : ℤ)
  let turn2 : ℚ := (Robot.ramp_cubic turn 10 100 : ℤ)
  r.drive speed2 turn2

/-- Servo driver state (src/src/servo.py).  `min_us`/`max_us` are the
calibration window (constructor defaults 500/2500), `period` the PWM
period in microseconds (1000000 // 50 for the fixed 50 Hz frequency);
`duty16` is the last value written to the PWM channel, and
`current_us`/`current_angle` the position tracking used by
`read`/`read_microseconds` (`None` until the first write). -/
structure Servo where
  min_us : ℚ
  max_us : ℚ
  period : ℚ
  duty16 : Option ℤ
  current_us : Option ℚ
  current_angle : Option ℤ
deriving DecidableEq

/-- A freshly constructed `Servo(pin)` with default calibration
(src/src/servo.py line 16). -/
def Servo.fresh : Servo :=
  { min_us := 500, max_us := 2500, period := 20000
    duty16 := none, current_us := none, current_angle := none }

/-- `Servo._angle_to_us` (src/src/servo.py line 100). -/
def Servo.angle_to_us (sv : Servo) (angle : ℚ) : ℤ :=
  pyint (sv.min_us + angle * (sv.max_us - sv.min_us) / 180)

/-- `Servo._us_to_angle` (src/src/servo.py line 104). -/
def Servo.us_to_angle (sv : Servo) (us : ℚ) : ℤ :=
  pyint ((us - sv.min_us) * 180 / (sv.max_us - sv.min_us))

/-- `Servo.write_microseconds` (src/src/servo.py line 50): clamp the pulse
width to the calibration window, convert to 12-bit duty (`_us_to_duty`,
line 42, a floor division by the period) shifted to 16 bits, and record
the commanded position. -/
def Servo.write_microseconds (sv : Servo) (us : ℚ) : Servo :=
  let us2 := if us < sv.min_us then sv.min_us else if us > sv.max_us then sv.max_us else us
  { sv with duty16 := some (⌊us2 * 4095 / sv.period⌋ * 16)
            current_us := some us2
            current_angle := some (sv.us_to_angle us2) }

/-- `Servo.write` (src/src/servo.py line 67): clamp the angle to [0,180],
interpolate to microseconds, delegate to `write_microseconds`. -/
def Servo.write (sv : Servo) (angle : ℚ) : Servo :=
  let a := if angle < 0 then (0:ℚ) else if angle > 180 then 180 else angle
  sv.write_microseconds ((sv.angle_to_us a : ℤ) : ℚ)

/-- `Servo.read` (src/src/servo.py line 91): the last commanded angle. -/
def Servo.read (sv : Servo) : Option ℤ :=
  sv.current_angle

/-- The angle `read` reports after `write a` on a default-calibrated
servo (the 1000 default is never reached: `write` always stores an
angle). -/
def roundTripAngle (a : ℕ) : ℤ :=
  ((Servo.fresh.write (a:ℚ)).read).getD 1000

/-- Module constants of src/src/turret.py lines 7-12. -/
def PAN_MIN : ℚ := 500

def PAN_MAX : ℚ := 2500

def TILT_MIN : ℚ := 1250

def TILT_MAX : ℚ := 2000

def TRIGGER_MIN : ℚ := 1400

def TRIGGER_MAX : ℚ := 2500

/-- `TurretState` (src/src/turret.py line 15). -/
inductive TurretState where
  | STANDBY
  | SPIN_UP
  | READY
  | FIRING
  | COOLDOWN
  | EMPTY
deriving DecidableEq

/-- The turret controller's state (src/src/turret.py class `Turret`):
its three servos, the flywheel motor's last written `duty_u16` value
(`None` before the first write), the machine state, the two
`asyncio.Event` latches, and the ammo counter. -/
structure Turret where
  pan_servo : Servo
  tilt_servo : Servo
  trigger_servo : Servo
  fire_duty : Option ℤ
  state : TurretState
  armed : Bool
  firing : Bool
  ammo : ℤ
deriving DecidableEq

/-- `Turret.__init__` (src/src/turret.py line 25): servos centred (the
tilt centring uses `PAN_MAX`, as the source does), trigger withdrawn,
state STANDBY, both latches clear, 5 rounds.  The source's `//2` floor
divisions are exact here (both sums are even), so `/2` on ℚ agrees. -/
def Turret.init : Turret :=
  { pan_servo := Servo.fresh.write_microseconds ((PAN_MIN + PAN_MAX) / 2)
    tilt_servo := Servo.fresh.write_microseconds ((TILT_MIN + PAN_MAX) / 2)
    trigger_servo := Servo.fresh.write_microseconds TRIGGER_MAX
    fire_duty := none
    state := .STANDBY
    armed := false
    firing := false
    ammo := 5 }

/-- `Turret._get_next_state` (src/src/turret.py line 41) as the state it
assigns; `none` models the `raise ValueError` fall-through (an EMPTY
state while armed with ammo, which no reachable state exhibits). -/
def Turret.get_next_state (t : Turret) : Option TurretState :=
  if t.ammo < 1 then some .EMPTY
  else if t.armed = false then some .STANDBY
  else if t.state = .STANDBY then some .SPIN_UP
  else if t.state = .SPIN_UP then some .READY
  else if t.state = .READY then some (if t.firing then .FIRING else .READY)
  else if t.state = .FIRING then some .COOLDOWN
  else if t.state = .COOLDOWN then some .READY
  else none

/-- `Turret._execute_state_behaviour` (src/src/turret.py line 67): the
synchronous effects of one state body.  `1 << 15 = 32768` is the
SPIN_UP flywheel duty; FIRING pulls the trigger, decrements ammo and
clears the fire latch; COOLDOWN withdraws the trigger.  The `await`
dwell/yield points carry no state change. -/
def Turret.execute_state_behaviour (t : Turret) : Turret :=
  match t.state with
  | .STANDBY => { t with fire_duty := some 0 }
  | .SPIN_UP => { t with fire_duty := some 32768 }
  | .READY => t
  | .FIRING =>
      { t with trigger_servo := t.trigger_servo.write_microseconds TRIGGER_MIN
               ammo := t.ammo - 1
               firing := false }
  | .COOLDOWN => { t with trigger_servo := t.trigger_servo.write_microseconds TRIGGER_MAX }
  | .EMPTY => { t with fire_duty := some 0 }

/-- One iteration of the `Turret.run` loop (src/src/turret.py lines
124-125): decide the next state, then run its body. -/
def Turret.tick (t : Turret) : Option Turret :=
  (t.get_next_state).map fun st => Turret.execute_state_behaviour { t with state := st }

/-- `Turret.move` (src/src/turret.py line 133): map normalized pan/tilt
into the `PAN_*`/`TILT_*` windows and write the two servos. -/
def Turret.move (t : Turret) (pan tilt : ℚ) : Turret :=
  let p := map_range pan (-1) 1 PAN_MIN PAN_MAX
  let ti := map_range tilt (-1) 1 TILT_MIN TILT_MAX
  { t with pan_servo := t.pan_servo.write_microseconds p
           tilt_servo := t.tilt_servo.write_microseconds ti }

/-- The events that can touch the turret state: the four external calls
`arm`/`disarm`/`fire`/`move` (src/src/turret.py lines 100-107, 133) and
one loop iteration. -/
inductive Ev where
  | arm
  | disarm
  | fire
  | move (pan tilt : ℚ)
  | tick
deriving DecidableEq

/-- The effect of one event on the turret state. -/
def Turret.step (t : Turret) : Ev → Option Turret
  | .arm => some { t with armed := true }
  | .disarm => some { t with armed := false }
  | .fire => some { t with firing := true }
  | .move pan tilt => some (t.move pan tilt)
  | .tick => t.tick

/-- Run a sequence of events from a state. -/
def Turret.runEvs (t : Turret) : List Ev → Option Turret
  | [] => some t
  | e :: evs => (t.step e).bind fun t2 => t2.runEvs evs

/-- A state the turret can be in at a suspension point of its loop,
under some interleaving of external calls and loop iterations. -/
def Turret.Reachable (t : Turret) : Prop :=
  ∃ evs, Turret.init.runEvs evs = some t

/-- How one iteration of `Turret.run` (src/src/turret.py lines 121-131)
can end: the body returned, it raised `asyncio.CancelledError`, or it
raised any other exception. -/
inductive TickOutcome where
  | ok
  | cancelled
  | error
deriving DecidableEq

/-- What the `Turret.run` loop does after an iteration: keep looping
after a sleep of `ms` milliseconds (having logged the error when
`logged`), or exit the loop. -/
inductive LoopControl where
  | continueAfterMs (ms : ℕ) (logged : Bool)
  | stop
deriving DecidableEq

/-- The control flow of the `try/except` in `Turret.run`
(src/src/turret.py lines 121-131): a normal iteration yields
(`sleep_ms(0)`) and continues; `CancelledError` breaks the loop; any
other exception is logged and followed by `sleep(1)` — one second —
before the loop continues. -/
def Turret.runLoopControl : TickOutcome → LoopControl
  | .ok => .continueAfterMs 0 false
  | .cancelled => .stop
  | .error => .continueAfterMs 1000 true

/-- Events taking a fresh turret through arming to READY. -/
def armReadyTrace : List Ev :=
  [.arm, .tick, .tick]

/-- One complete shot from READY: fire request, FIRING tick, COOLDOWN
tick, and the tick returning to READY. -/
def shotCycle : List Ev :=
  [.fire, .tick, .tick, .tick]

/-- Arm, then fire all five rounds; the trace ends on the fifth FIRING
tick, which consumes the last round. -/
def fiveShotTrace : List Ev :=
  armReadyTrace ++ shotCycle ++ shotCycle ++ shotCycle ++ shotCycle ++ [.fire, .tick]

/-- The machine state after running `evs` from a fresh turret. -/
def stateAfter (evs : List Ev) : Option TurretState :=
  (Turret.init.runEvs evs).map Turret.state

/-- The ammo count after running `evs` from a fresh turret. -/
def ammoAfter (evs : List Ev) : Option ℤ :=
  (Turret.init.runEvs evs).map Turret.ammo

/-- The trigger servo pulse width after running `evs` from a fresh
turret. -/
def triggerAfter (evs : List Ev) : Option (Option ℚ) :=
  (Turret.init.runEvs evs).map fun t => t.trigger_servo.current_us

/-- The flywheel duty after running `evs` from a fresh turret. -/
def flywheelAfter (evs : List Ev) : Option (Option ℤ) :=
  (Turret.init.runEvs evs).map Turret.fire_duty

/-- The reachable READY state after arming a fresh turret (the `getD`
default is never used: the trace succeeds). -/
def readySt : Turret :=
  (Turret.init.runEvs armReadyTrace).getD Turret.init

/-- The reachable state just after the fifth FIRING tick consumed the
last round. -/
def lastShotSt : Turret :=
  (Turret.init.runEvs fiveShotTrace).getD Turret.init

/-- The reachable READY state with the fire latch set, one tick before
entering FIRING. -/
def preFireSt : Turret :=
  (Turret.init.runEvs (armReadyTrace ++ [.fire])).getD Turret.init

/-- The reachable state on the first FIRING tick (four rounds left). -/
def postFireSt : Turret :=
  (Turret.init.runEvs (armReadyTrace ++ [.fire, .tick])).getD Turret.init

/-- The inductive invariant of the turret machine: ammo is never
negative, and in READY there is always a round left. -/
def TurretInv (t : Turret) : Prop :=
  0 ≤ t.ammo ∧ (t.state = .READY → 1 ≤ t.ammo)

/-- Once the magazine is empty and the machine has observed it: ammo
stays below 1, the state stays EMPTY and the flywheel stays off. -/
def EmptyLock (t : Turret) : Prop :=
  t.ammo < 1 ∧ t.state = .EMPTY ∧ t.fire_duty = some 0

/-- The pan and tilt servos keep their construction-time calibration
window: `calibrate` is never called on them. -/
def WindowsInv (t : Turret) : Prop :=
  t.pan_servo.min_us = 500 ∧ t.pan_servo.max_us = 2500 ∧
    t.tilt_servo.min_us = 500 ∧ t.tilt_servo.max_us = 2500

/-- `ramp_cubic` at deadzone `dz` sends every value of magnitude below
`dz` to exactly 0 (first branch of src/src/robot.py line 46). -/
theorem ramp_cubic_deadzone (v deadzone max_value : ℚ) (h : pyabs v < deadzone) :
    Robot.ramp_cubic v deadzone max_value = 0 := by
  unfold Robot.ramp_cubic
  rw [if_pos h]

theorem pyabs_le_one {v : ℚ} (h1 : -1 ≤ v) (h2 : v ≤ 1) : pyabs v ≤ 1 := by
  unfold pyabs
  split <;> linarith

theorem robot_map_zero : Robot.map 0 (-100) 100 (-1023) 1023 = 0 ∧
    Robot.map 0 (-100) 100 (-511) 511 = 0 := by
  constructor <;> norm_num [Robot.map]

theorem motorCmdFor_zero : motorCmdFor 0 = MotorCmd.stop := by
  norm_num [motorCmdFor]

/-- C1: the claim says `Robot.update` forwards `turret.x`/`turret.y` to
`Turret.move`; in the code (src/src/robot.py lines 79-89) `update` binds
`pan` and `tilt` and then discards them — the `Robot` class holds no
turret at all, and the effect list of `update` on the frame
`{drive:{0,0}, turret:{1,1}}` (with two motors per side) consists of
motor commands only, with no turret-move effect. -/
theorem update_emits_no_turret_move :
    Robot.update ⟨2, 2⟩ ⟨⟨0, 0⟩, ⟨1, 1⟩⟩ =
      [RobotEffect.leftMotor MotorCmd.stop, RobotEffect.leftMotor MotorCmd.stop,
        RobotEffect.rightMotor MotorCmd.stop, RobotEffect.rightMotor MotorCmd.stop] := by
  with_unfolding_all decide

/-- C2: for every input frame whose drive axes lie in [-1,1], `Robot.update`
commands `stop()` on every left-side and right-side motor and never calls
`forward` or `reverse`: the cubic shaping with its fixed deadzone of 10
maps both axes to exactly 0, and `drive 0 0` stops every motor. -/
theorem update_stops_all_motors_on_normalized_drive (r : Robot) (f : InputFrame)
    (hx1 : -1 ≤ f.drive.x) (hx2 : f.drive.x ≤ 1)
    (hy1 : -1 ≤ f.drive.y) (hy2 : f.drive.y ≤ 1) :
    Robot.update r f =
      List.replicate r.nLeft (RobotEffect.leftMotor MotorCmd.stop) ++
        List.replicate r.nRight (RobotEffect.rightMotor MotorCmd.stop) := by
  have hdx : Robot.ramp_cubic f.drive.x 10 100 = 0 :=
    ramp_cubic_deadzone _ _ _ (lt_of_le_of_lt (pyabs_le_one hx1 hx2) (by norm_num))
  have hdy : Robot.ramp_cubic f.drive.y 10 100 = 0 :=
    ramp_cubic_deadzone _ _ _ (lt_of_le_of_lt (pyabs_le_one hy1 hy2) (by norm_num))
  simp only [Robot.update, Robot.drive]
  rw [hdx, hdy]
  have hL : Robot.leftSpeed ((0:ℤ):ℚ) ((0:ℤ):ℚ) = 0 := by
    unfold Robot.leftSpeed
    push_cast
    rw [robot_map_zero.1, robot_map_zero.2]
    norm_num
  have hR : Robot.rightSpeed ((0:ℤ):ℚ) ((0:ℤ):ℚ) = 0 := by
    unfold Robot.rightSpeed
    push_cast
    rw [robot_map_zero.1, robot_map_zero.2]
    norm_num
  rw [hL, hR, motorCmdFor_zero]

/-- C2 witness: a concrete in-range frame on a robot with two motors per
side, every one of which is stopped. -/
theorem update_stops_witness :
    Robot.update ⟨2, 2⟩ ⟨⟨1/2, -(1/2)⟩, ⟨1, 0⟩⟩ =
      List.replicate 2 (RobotEffect.leftMotor MotorCmd.stop) ++
        List.replicate 2 (RobotEffect.rightMotor MotorCmd.stop) :=
  update_stops_all_motors_on_normalized_drive ⟨2, 2⟩ ⟨⟨1/2, -(1/2)⟩, ⟨1, 0⟩⟩
    (by norm_num) (by norm_num) (by norm_num) (by norm_num)

/-- C3 counterexample: no single map `L` satisfies
`left = L (speed + turn)` and `right = L (speed - turn)`, because the code
rescales speed to ±1023 but turn only to ±511 before mixing:
at `(speed, turn) = (0, 100)` the left output is 511, while at
`(100, 0)` — the same `speed + turn` — it is 1023. -/
theorem drive_mixer_not_single_rescale :
    ¬ ∃ L : ℚ → ℚ,
        (∀ speed turn, Robot.leftSpeed speed turn = L (speed + turn)) ∧
        (∀ speed turn, Robot.rightSpeed speed turn = L (speed - turn)) := by
  rintro ⟨L, hL, -⟩
  have h1 := hL 0 100
  have h2 := hL 100 0
  rw [show (0:ℚ) + 100 = 100 by norm_num] at h1
  rw [show (100:ℚ) + 0 = 100 by norm_num] at h2
  have h3 : (511:ℚ) = 1023 := by
    calc (511:ℚ) = Robot.leftSpeed 0 100 := by norm_num [Robot.leftSpeed, Robot.map]
    _ = L 100 := h1
    _ = Robot.leftSpeed 100 0 := h2.symm
    _ = 1023 := by norm_num [Robot.leftSpeed, Robot.map]
  norm_num at h3

/-- C3 amended: the mixer first rescales speed linearly from [-100,100] to
[-1023,1023] and turn from [-100,100] to [-511,511] — two different
linear maps, applied before mixing — then sums and differences them, and
performs no clamping (at full speed and turn the left value reaches 1534,
beyond the 1023 duty maximum). -/
theorem drive_mixer_scales_then_mixes (speed turn : ℚ) :
    Robot.leftSpeed speed turn = (1023 * speed + 511 * turn) / 100 ∧
    Robot.rightSpeed speed turn = (1023 * speed - 511 * turn) / 100 ∧
    Robot.leftSpeed 100 100 = 1534 := by
  refine ⟨?_, ?_, by norm_num [Robot.leftSpeed, Robot.map]⟩
  · unfold Robot.leftSpeed Robot.map
    ring
  · unfold Robot.rightSpeed Robot.map
    ring

/-- C9: for every integer angle in [0,180], after `write(angle)` a
default-calibrated servo's `read()` returns the angle to within ±1. -/
theorem servo_write_read_roundtrip (a : ℕ) (h : a ≤ 180) :
    (Servo.fresh.write (a:ℚ)).read = some (roundTripAngle a) ∧
      (roundTripAngle a - (a:ℤ)).natAbs ≤ 1 := by
  revert h
  revert a
  with_unfolding_all decide

/-- C9 witness: at angle 90 the round trip is exact. -/
theorem servo_write_read_roundtrip_witness :
    (Servo.fresh.write ((90:ℕ):ℚ)).read = some (roundTripAngle 90) ∧
      (roundTripAngle 90 - ((90:ℕ):ℤ)).natAbs ≤ 1 :=
  servo_write_read_roundtrip 90 (by norm_num)

theorem execute_state (t : Turret) :
    (Turret.execute_state_behaviour t).state = t.state := by
  cases h : t.state <;> simp [Turret.execute_state_behaviour, h]

theorem execute_ammo (t : Turret) :
    (Turret.execute_state_behaviour t).ammo =
      if t.state = .FIRING then t.ammo - 1 else t.ammo := by
  cases h : t.state <;> simp [Turret.execute_state_behaviour, h]

theorem tick_eq_some {t t' : Turret} (h : t.tick = some t') :
    ∃ st, t.get_next_state = some st ∧
      t' = Turret.execute_state_behaviour { t with state := st } := by
  unfold Turret.tick at h
  rcases hg : t.get_next_state with _ | st
  · rw [hg] at h
    cases h
  · rw [hg] at h
    simp at h
    exact ⟨st, rfl, h.symm⟩

/-- With an empty magazine, a tick moves to EMPTY (whatever the latches
hold) and turns the flywheel off, changing nothing else. -/
theorem tick_empty (t : Turret) (h : t.ammo < 1) :
    t.tick = some { t with state := .EMPTY, fire_duty := some 0 } := by
  unfold Turret.tick Turret.get_next_state
  rw [if_pos h]
  simp [Turret.execute_state_behaviour]

theorem runEvs_preserves {P : Turret → Prop}
    (hstep : ∀ t e t', P t → t.step e = some t' → P t') :
    ∀ evs (t t' : Turret), P t → t.runEvs evs = some t' → P t' := by
  intro evs
  induction evs with
  | nil =>
    intro t t' hP h
    unfold Turret.runEvs at h
    injection h with h2
    subst h2
    exact hP
  | cons e evs ih =>
    intro t t' hP h
    unfold Turret.runEvs at h
    obtain ⟨t2, hst, hrest⟩ := Option.bind_eq_some.mp h
    exact ih t2 t' (hstep t e t2 hP hst) hrest

theorem tick_inv {t t' : Turret} (h : TurretInv t) (hs : t.tick = some t') :
    TurretInv t' := by
  obtain ⟨h0, h1⟩ := h
  obtain ⟨st, hg, ht'⟩ := tick_eq_some hs
  subst ht'
  unfold Turret.get_next_state at hg
  split_ifs at hg with g1 g2 g3 g4 g5 g6 g7 <;>
    (injection hg with hst) <;>
      (subst hst
       refine ⟨?_, ?_⟩ <;> simp [Turret.execute_state_behaviour] <;> omega)

theorem step_inv {t t' : Turret} {e : Ev} (h : TurretInv t) (hs : t.step e = some t') :
    TurretInv t' := by
  cases e <;> simp only [Turret.step] at hs
  case arm => injection hs with h9; subst h9; exact h
  case disarm => injection hs with h9; subst h9; exact h
  case fire => injection hs with h9; subst h9; exact h
  case move p ti => injection hs with h9; subst h9; exact h
  case tick => exact tick_inv h hs

theorem init_inv : TurretInv Turret.init :=
  ⟨by norm_num [Turret.init], by intro hr; simp [Turret.init] at hr⟩

theorem reachable_inv {t : Turret} (h : t.Reachable) : TurretInv t := by
  obtain ⟨evs, hrun⟩ := h
  exact runEvs_preserves (fun t e t' hP hs => step_inv hP hs) evs Turret.init t init_inv hrun

theorem step_emptyLock {t t' : Turret} {e : Ev} (h : EmptyLock t) (hs : t.step e = some t') :
    EmptyLock t' := by
  obtain ⟨h1, h2, h3⟩ := h
  cases e <;> simp only [Turret.step] at hs
  case arm => injection hs with h9; subst h9; exact ⟨h1, h2, h3⟩
  case disarm => injection hs with h9; subst h9; exact ⟨h1, h2, h3⟩
  case fire => injection hs with h9; subst h9; exact ⟨h1, h2, h3⟩
  case move p ti => injection hs with h9; subst h9; exact ⟨h1, h2, h3⟩
  case tick =>
    rw [tick_empty t h1] at hs
    injection hs with h4
    subst h4
    exact ⟨h1, rfl, rfl⟩

theorem step_windows {t t' : Turret} {e : Ev} (h : WindowsInv t) (hs : t.step e = some t') :
    WindowsInv t' := by
  cases e <;> simp only [Turret.step] at hs
  case arm => injection hs with h9; subst h9; exact h
  case disarm => injection hs with h9; subst h9; exact h
  case fire => injection hs with h9; subst h9; exact h
  case move p ti => injection hs with h9; subst h9; exact h
  case tick =>
    obtain ⟨st, hg, ht'⟩ := tick_eq_some hs
    subst ht'
    cases st <;> exact h

theorem reachable_windows {t : Turret} (h : t.Reachable) : WindowsInv t := by
  obtain ⟨evs, hrun⟩ := h
  exact runEvs_preserves (fun t e t' hP hs => step_windows hP hs) evs Turret.init t
    ⟨rfl, rfl, rfl, rfl⟩ hrun

/-- A disarm followed by a tick sends any state with ammunition left to
STANDBY with the flywheel off, whatever the machine state was. -/
theorem disarm_tick_standby (t : Turret) (h : 1 ≤ t.ammo) :
    t.runEvs [.disarm, .tick] =
      some { t with armed := false, state := .STANDBY, fire_duty := some 0 } := by
  have h2 : ¬ (t.ammo < 1) := by omega
  simp [Turret.runEvs, Turret.step, Turret.tick, Turret.get_next_state,
    Turret.execute_state_behaviour, h2]

/-- A tick that lands in FIRING has already run the complete FIRING body:
trigger pulled, ammo decremented by exactly one, fire latch cleared. -/
theorem tick_to_firing {t t' : Turret} (hs : t.tick = some t') (hf : t'.state = .FIRING) :
    t'.ammo = t.ammo - 1 ∧
      t'.trigger_servo = t.trigger_servo.write_microseconds TRIGGER_MIN ∧
      t'.firing = false := by
  obtain ⟨st, hg, ht'⟩ := tick_eq_some hs
  subst ht'
  rw [execute_state] at hf
  simp at hf
  subst hf
  simp [Turret.execute_state_behaviour]

/-- C4: from a fresh turret (STANDBY, 5 rounds), `arm()` then ticks go
STANDBY → SPIN_UP → READY; `fire()` while READY makes the next tick
FIRING with ammo 4 and the trigger at its pulled pulse width (1400 µs),
the tick after that COOLDOWN with the trigger withdrawn (2500 µs), and
the next tick READY again. -/
theorem turret_arm_fire_sequence :
    stateAfter [] = some .STANDBY ∧ ammoAfter [] = some 5 ∧
    stateAfter [.arm, .tick] = some .SPIN_UP ∧
    stateAfter armReadyTrace = some .READY ∧
    stateAfter (armReadyTrace ++ [.fire, .tick]) = some .FIRING ∧
    ammoAfter (armReadyTrace ++ [.fire, .tick]) = some 4 ∧
    triggerAfter (armReadyTrace ++ [.fire, .tick]) = some (some TRIGGER_MIN) ∧
    stateAfter (armReadyTrace ++ [.fire, .tick, .tick]) = some .COOLDOWN ∧
    triggerAfter (armReadyTrace ++ [.fire, .tick, .tick]) = some (some TRIGGER_MAX) ∧
    stateAfter (armReadyTrace ++ [.fire, .tick, .tick, .tick]) = some .READY := by
  refine ⟨?_, ?_, ?_, ?_, ?_, ?_, ?_, ?_, ?_, ?_⟩ <;> with_unfolding_all rfl

/-- C5: firing all five rounds leaves ammo 0 while still in FIRING; any
state with an empty magazine ticks to EMPTY with the flywheel at zero
duty regardless of the armed/fire latches; and from the first such tick
on, under every further interleaving of calls and ticks, the state stays
EMPTY (so the machine never fires again) with the flywheel off. -/
theorem turret_empty_after_exhaustion :
    (stateAfter fiveShotTrace = some .FIRING ∧ ammoAfter fiveShotTrace = some 0) ∧
    (∀ t : Turret, t.ammo < 1 →
      t.tick = some { t with state := .EMPTY, fire_duty := some 0 }) ∧
    (∀ t : Turret, t.ammo < 1 → ∀ evs t', t.runEvs (Ev.tick :: evs) = some t' →
      t'.state = .EMPTY ∧ t'.fire_duty = some 0 ∧ t'.state ≠ .FIRING) := by
  refine ⟨⟨by with_unfolding_all rfl, by with_unfolding_all rfl⟩,
    fun t h => tick_empty t h, ?_⟩
  intro t h evs t' hrun
  unfold Turret.runEvs at hrun
  obtain ⟨t2, hst, hrest⟩ := Option.bind_eq_some.mp hrun
  simp only [Turret.step] at hst
  rw [tick_empty t h] at hst
  injection hst with h4
  subst h4
  have hlock : EmptyLock t' :=
    runEvs_preserves (fun t e t' hP hs => step_emptyLock hP hs) evs
      { t with state := .EMPTY, fire_duty := some 0 } t' ⟨h, rfl, rfl⟩ hrest
  obtain ⟨hl1, hl2, hl3⟩ := hlock
  exact ⟨hl2, hl3, by rw [hl2]; intro hc; cases hc⟩

set_option maxHeartbeats 2000000 in
/-- C5 witness: the concrete post-exhaustion state (after the five-shot
trace, with ammo 0) ticks to EMPTY with the flywheel off. -/
theorem turret_empty_witness :
    lastShotSt.tick = some { lastShotSt with state := .EMPTY, fire_duty := some 0 } :=
  turret_empty_after_exhaustion.2.1 lastShotSt
    (by have h9 : lastShotSt.ammo = 0 := by with_unfolding_all rfl
        omega)

/-- C6 counterexample: the claim says a disarm during FIRING always makes
the following tick STANDBY; but when the shot that was in progress was
the last one, the following tick goes to EMPTY instead (ammo exhaustion
has priority over disarm).  Concretely: after arming and firing four
full cycles plus the fifth FIRING tick the state is FIRING with ammo 0;
calling `disarm()` and ticking yields EMPTY, not STANDBY. -/
theorem disarm_during_last_shot_goes_empty :
    stateAfter fiveShotTrace = some .FIRING ∧
    ammoAfter fiveShotTrace = some 0 ∧
    stateAfter (fiveShotTrace ++ [.disarm, .tick]) = some .EMPTY ∧
    TurretState.EMPTY ≠ TurretState.STANDBY := by
  refine ⟨?_, ?_, ?_, by decide⟩ <;> with_unfolding_all rfl

/-- C6 amended: a tick that enters FIRING always completes the shot
(trigger pulled, ammo decremented, latch cleared) — a disarm between
ticks cannot undo it; if disarm is called while the turret sits in
FIRING and the magazine is not yet empty, the following tick goes to
STANDBY instead of COOLDOWN; and a disarm while in any reachable READY
state makes the next tick STANDBY. -/
theorem disarm_skips_cooldown_not_shot :
    (∀ t t' : Turret, t.tick = some t' → t'.state = .FIRING →
      t'.ammo = t.ammo - 1 ∧
        t'.trigger_servo = t.trigger_servo.write_microseconds TRIGGER_MIN) ∧
    (∀ t : Turret, t.state = .FIRING → 1 ≤ t.ammo →
      t.runEvs [.disarm, .tick] =
        some { t with armed := false, state := .STANDBY, fire_duty := some 0 }) ∧
    (∀ t : Turret, t.Reachable → t.state = .READY →
      t.runEvs [.disarm, .tick] =
        some { t with armed := false, state := .STANDBY, fire_duty := some 0 }) :=
  ⟨fun _ _ hs hf => ⟨(tick_to_firing hs hf).1, (tick_to_firing hs hf).2.1⟩,
   fun t _ h => disarm_tick_standby t h,
   fun t hre hr => disarm_tick_standby t ((reachable_inv hre).2 hr)⟩

set_option maxHeartbeats 2000000 in
/-- C6 witness: the first FIRING tick decrements ammo from 5 to 4 and
pulls the trigger; a disarm from that FIRING state makes the next tick
STANDBY; likewise a disarm from the reachable READY state. -/
theorem disarm_witness :
    (postFireSt.ammo = preFireSt.ammo - 1 ∧
      postFireSt.trigger_servo = preFireSt.trigger_servo.write_microseconds TRIGGER_MIN) ∧
    postFireSt.runEvs [.disarm, .tick] =
      some { postFireSt with armed := false, state := .STANDBY, fire_duty := some 0 } ∧
    readySt.runEvs [.disarm, .tick] =
      some { readySt with armed := false, state := .STANDBY, fire_duty := some 0 } :=
  ⟨disarm_skips_cooldown_not_shot.1 preFireSt postFireSt
      (by with_unfolding_all rfl) (by with_unfolding_all rfl),
   disarm_skips_cooldown_not_shot.2.1 postFireSt
      (by with_unfolding_all rfl)
      (by have h9 : postFireSt.ammo = 4 := by with_unfolding_all rfl
          omega),
   disarm_skips_cooldown_not_shot.2.2 readySt
      ⟨armReadyTrace, by with_unfolding_all rfl⟩ (by with_unfolding_all rfl)⟩

/-- C7: in every reachable turret state the ammo count is non-negative;
a tick changes ammo exactly when it enters FIRING, and then by exactly
one; the external calls never change ammo — so ammo is never increased
or restored. -/
theorem turret_ammo_conservation :
    (∀ t : Turret, t.Reachable → 0 ≤ t.ammo) ∧
    (∀ t t' : Turret, t.tick = some t' →
      t'.ammo = if t'.state = .FIRING then t.ammo - 1 else t.ammo) ∧
    (∀ (t t' : Turret) (e : Ev), e ≠ Ev.tick → t.step e = some t' → t'.ammo = t.ammo) := by
  refine ⟨fun t h => (reachable_inv h).1, ?_, ?_⟩
  · intro t t' hs
    obtain ⟨st, hg, ht'⟩ := tick_eq_some hs
    subst ht'
    rw [execute_ammo, execute_state]
  · intro t t' e hne hs
    cases e <;> simp only [Turret.step] at hs
    case arm => injection hs with h9; subst h9; rfl
    case disarm => injection hs with h9; subst h9; rfl
    case fire => injection hs with h9; subst h9; rfl
    case move p ti => injection hs with h9; subst h9; rfl
    case tick => exact absurd rfl hne

set_option maxHeartbeats 2000000 in
/-- C7 witness: the fresh turret is reachable with 5 ≥ 0 rounds; the
concrete FIRING entry tick took ammo from 5 to 4; arming does not touch
ammo. -/
theorem turret_ammo_witness :
    (0 ≤ Turret.init.ammo) ∧
    postFireSt.ammo =
      (if postFireSt.state = .FIRING then preFireSt.ammo - 1 else preFireSt.ammo) ∧
    ({ Turret.init with armed := true } : Turret).ammo = Turret.init.ammo :=
  ⟨turret_ammo_conservation.1 Turret.init ⟨[], rfl⟩,
   turret_ammo_conservation.2.1 preFireSt postFireSt (by with_unfolding_all rfl),
   turret_ammo_conservation.2.2 Turret.init { Turret.init with armed := true } Ev.arm
     (by intro hc; cases hc) rfl⟩

/-- C8: the `Turret.run` loop's control flow — a normal iteration
continues immediately, a non-cancellation exception is logged and
followed by a one-second (1000 ms) backoff before the loop continues,
and only a cancellation request stops the loop. -/
theorem run_loop_control_flow :
    Turret.runLoopControl .ok = .continueAfterMs 0 false ∧
    Turret.runLoopControl .error = .continueAfterMs 1000 true ∧
    Turret.runLoopControl .cancelled = .stop ∧
    Turret.runLoopControl .ok ≠ .stop ∧
    Turret.runLoopControl .error ≠ .stop := by
  refine ⟨rfl, rfl, rfl, ?_, ?_⟩ <;> intro hc <;> cases hc

/-- C10: on any reachable turret, `move(pan, tilt)` with pan and tilt in
[-1,1] sets the pan pulse width to the linear image of pan in
[PAN_MIN, PAN_MAX] and the tilt pulse width to the linear image of tilt
in [TILT_MIN, TILT_MAX] (the servo clamp never engages), and leaves the
machine state, ammo, both latches, the flywheel duty and the trigger
servo untouched. -/
theorem move_maps_into_window_preserves_machine (t : Turret) (hre : t.Reachable)
    (pan tilt : ℚ) (hp1 : -1 ≤ pan) (hp2 : pan ≤ 1) (ht1 : -1 ≤ tilt) (ht2 : tilt ≤ 1) :
    (t.move pan tilt).pan_servo.current_us =
        some (map_range pan (-1) 1 PAN_MIN PAN_MAX) ∧
    (t.move pan tilt).tilt_servo.current_us =
        some (map_range tilt (-1) 1 TILT_MIN TILT_MAX) ∧
    (t.move pan tilt).state = t.state ∧
    (t.move pan tilt).ammo = t.ammo ∧
    (t.move pan tilt).armed = t.armed ∧
    (t.move pan tilt).firing = t.firing ∧
    (t.move pan tilt).fire_duty = t.fire_duty ∧
    (t.move pan tilt).trigger_servo = t.trigger_servo := by
  obtain ⟨w1, w2, w3, w4⟩ := reachable_windows hre
  have hpan : map_range pan (-1) 1 PAN_MIN PAN_MAX = 1000 * pan + 1500 := by
    unfold map_range PAN_MIN PAN_MAX
    ring
  have htilt : map_range tilt (-1) 1 TILT_MIN TILT_MAX = 375 * tilt + 1625 := by
    unfold map_range TILT_MIN TILT_MAX
    ring
  have hc1 : ¬ (1000 * pan + 1500 < (500:ℚ)) := by linarith
  have hc2 : ¬ (1000 * pan + 1500 > (2500:ℚ)) := by linarith
  have hc3 : ¬ (375 * tilt + 1625 < (500:ℚ)) := by linarith
  have hc4 : ¬ (375 * tilt + 1625 > (2000:ℚ)) := by linarith
  have hc4' : ¬ (375 * tilt + 1625 > (2500:ℚ)) := by linarith
  refine ⟨?_, ?_, rfl, rfl, rfl, rfl, rfl, rfl⟩
  · simp [Turret.move, Servo.write_microseconds, w1, w2, hpan, hc1, hc2]
  · simp [Turret.move, Servo.write_microseconds, w3, w4, htilt, hc3, hc4']

/-- C10 witness: moving a fresh turret to centre pan and full-up tilt. -/
theorem move_witness :
    (Turret.init.move 0 1).pan_servo.current_us =
        some (map_range 0 (-1) 1 PAN_MIN PAN_MAX) ∧
    (Turret.init.move 0 1).tilt_servo.current_us =
        some (map_range 1 (-1) 1 TILT_MIN TILT_MAX) ∧
    (Turret.init.move 0 1).state = Turret.init.state ∧
    (Turret.init.move 0 1).ammo = Turret.init.ammo ∧
    (Turret.init.move 0 1).armed = Turret.init.armed ∧
    (Turret.init.move 0 1).firing = Turret.init.firing ∧
    (Turret.init.move 0 1).fire_duty = Turret.init.fire_duty ∧
    (Turret.init.move 0 1).trigger_servo = Turret.init.trigger_servo :=
  move_maps_into_window_preserves_machine Turret.init ⟨[], rfl⟩ 0 1
    (by norm_num) (by norm_num) (by norm_num) (by norm_num)
